import Mathlib

/-!
Verification of the request-dispatch core of the hummingbird direct proxy
client (package `client`: `ProxyDirectClient` and the account-scoped
`directClient` façade).

The embedding is shallow: each Go function is translated to a Lean function
over explicit data.  Concurrency is modelled by making the sequence of
observable events (statuses received on a channel, select outcomes of the
staggered read loop, construction successes per replica) an explicit input
list, in the order the dispatching loop observes them.
-/

namespace Hummingbird

/-- A backend storage device as returned by a ring: `{Ip, Port, Device}`
(`common/ring.Device`, consumed by `ProxyDirectClient`). -/
structure Device where
  ip : String
  port : Nat
  device : String
deriving DecidableEq, Repr

/-! ## Quorum dispatcher (`ProxyDirectClient.quorumResponse`) -/

/-- Outcome of `quorumResponse`'s receive loop.  `returns s` models the
`return status` inside the `for status := range statusCodes` loop.
`blocked` models the loop waiting forever on the next channel receive:
the `statusCodes` channel is never closed and each of the `len(reqs)`
goroutines sends at most one status, so once the input list of arriving
statuses is exhausted no further receive can ever complete and the
`return 503` after the loop is unreachable. -/
inductive DispatchResult where
  | returns (status : Nat)
  | blocked
deriving DecidableEq, Repr

/-- `quorum := int(math.Ceil(float64(len(reqs)) / 2.0))`:
the quorum threshold `Q = ⌈R/2⌉` for `R` sub-requests. -/
def quorumThreshold (r : Nat) : Nat := (r + 1) / 2

/-- The body of `quorumResponse`'s receive loop.  `responseClasses` is the
six-entry counter array `[]int{0, 0, 0, 0, 0, 0}`; the input list holds the
statuses in arrival order (a transport failure has already been mapped to
`500` by the sending goroutine).  Each received `status` with
`class := status / 100 ≤ 5` bumps its class counter and is returned as soon
as its counter reaches the quorum. -/
def quorumLoop (quorum : Nat) (responseClasses : List Nat) : List Nat → DispatchResult
  | [] => DispatchResult.blocked
  | status :: rest =>
    let cls := status / 100
    if cls ≤ 5 then
      let updated := responseClasses.set cls (responseClasses.getD cls 0 + 1)
      if quorum ≤ updated.getD cls 0 then DispatchResult.returns status
      else quorumLoop quorum updated rest
    else quorumLoop quorum responseClasses rest

/-- `ProxyDirectClient.quorumResponse`, as a function of the sequence of
statuses its loop receives.  The quorum is computed from the number of
launched sub-requests, which equals the number of statuses that will ever be
sent, so `arrivals` is the complete arrival vector of the `R` outcomes. -/
def quorumResponse (arrivals : List Nat) : DispatchResult :=
  quorumLoop (quorumThreshold arrivals.length) [0, 0, 0, 0, 0, 0] arrivals

/-- C1: the claim says the quorum dispatcher "returns 503 if no class reaches
Q after all R complete"; the code cannot do that.  On the arrival vector
`[200, 404, 500]` (R = 3, Q = 2, no hundreds class reaches 2) the receive
loop consumes all three statuses without any class reaching quorum and then
blocks forever on the never-closed status channel, so the `return 503`
statement is unreachable and the dispatcher never returns. -/
theorem quorumResponse_noQuorum_blocks :
    quorumThreshold 3 = 2 ∧
      quorumResponse [200, 404, 500] = DispatchResult.blocked := by
  decide

/-- C4 counterexample: with R = 1 and a transport failure (mapped to status
500 by the sending goroutine), the quorum dispatcher returns 500 — the lone
500 reaches the quorum Q = 1 for class 5 — and not 503 as the claim states. -/
theorem quorumResponse_single_transport_failure :
    quorumResponse [500] = DispatchResult.returns 500 ∧
      quorumResponse [500] ≠ DispatchResult.returns 503 := by
  decide

/-- C4 (amended): R = 1 gives Q = 1 and a single completed response of any
class (any status below 600, so that its hundreds class is counted) is
returned as the final result; in particular a transport failure on the single
sub-request, mapped to status 500, makes the dispatcher return 500. -/
theorem quorumResponse_single (s : Nat) (h : s < 600) :
    quorumResponse [s] = DispatchResult.returns s := by
  have hc : s / 100 ≤ 5 := by omega
  unfold quorumResponse quorumLoop quorumThreshold
  simp only [List.length_singleton]
  rw [if_pos hc]
  set cls := s / 100 with hcls
  interval_cases cls <;> simp

/-- C4 witness: the amended behavior at the concrete transport-failure
input: the single status 500 is returned. -/
theorem quorumResponse_single_witness :
    quorumResponse [500] = DispatchResult.returns 500 :=
  quorumResponse_single 500 (by norm_num)

/-- C10: called with an empty request list the quorum threshold is
`⌈0/2⌉ = 0`, no status is ever sent on the channel, and the dispatcher
blocks forever instead of returning; consequently the dispatcher can only
return a status when it was given at least one sub-request, so every
quorum-based operation relies on the ring returning at least one device. -/
theorem quorumResponse_empty_blocks :
    quorumThreshold 0 = 0 ∧
      quorumResponse [] = DispatchResult.blocked ∧
      ∀ (arrivals : List Nat) (s : Nat),
        quorumResponse arrivals = DispatchResult.returns s → arrivals ≠ [] := by
  refine ⟨rfl, rfl, ?_⟩
  intro arrivals s h hnil
  rw [hnil] at h
  simp [quorumResponse, quorumLoop] at h

/-- C10 witness: the termination-implies-nonempty direction applied at the
concrete arrival vector `[200]`, whose dispatch returns 200. -/
theorem quorumResponse_empty_blocks_witness : ([200] : List Nat) ≠ [] :=
  quorumResponse_empty_blocks.2.2 [200] 200 (by decide)

/-! ## First-response dispatcher (`ProxyDirectClient.firstResponse`)

Each iteration of the staggered loop launches one sub-request and then
executes one `select`: either it receives from the `success` channel — the
response of some launched goroutine, which is `nil` when `c.client.Do`
failed — or the one-second `time.After` timer fires.  The loop runs at most
once per sub-request, so a run of the dispatcher is described by the list of
select outcomes, one per executed iteration. -/

/-- One `select` outcome of the `firstResponse` loop: `arrival r` is a
receive from the `success` channel (`r = none` models a `nil` response from
a failed transport, `r = some s` a response with status `s`); `timeout` is
the `time.After(time.Second)` branch. -/
inductive FrEvent where
  | arrival (resp : Option Nat)
  | timeout
deriving DecidableEq, Repr

/-- `ProxyDirectClient.firstResponse` as a function of its select outcomes:
an arrived non-nil response with `StatusCode/100 == 2` is returned at once;
nil responses, non-2xx responses and timeouts just move to the next
iteration; when the iterations are exhausted the function returns `nil`,
modelled as `none`. -/
def firstResponse : List FrEvent → Option Nat
  | [] => none
  | FrEvent.timeout :: rest => firstResponse rest
  | FrEvent.arrival none :: rest => firstResponse rest
  | FrEvent.arrival (some s) :: rest =>
    if s / 100 = 2 then some s else firstResponse rest

/-- `ProxyDirectClient.GetObject` after the requests are built: on a `nil`
result from `firstResponse` it returns `(nil, nil, 404)`; otherwise it
returns the winning response's body, headers and status.  Body and headers
are modelled by the status of the response they belong to; `none` is Go's
`nil`. -/
def getObject (events : List FrEvent) : Option Nat × Option Nat × Nat :=
  match firstResponse events with
  | none => (none, none, 404)
  | some s => (some s, some s, s)

/-- The responses received (as channel arrivals) during a run of the
`firstResponse` loop, in order. -/
def arrivalsOf (events : List FrEvent) : List (Option Nat) :=
  events.filterMap (fun e => match e with
    | FrEvent.arrival r => some r
    | FrEvent.timeout => none)

/-- A run `events` of the `firstResponse` loop is consistent with the vector
`produced` of sub-request outcomes when the loop executed at most one
iteration per sub-request and every response it received was produced by
some distinct sub-request (the received multiset is contained in the
produced multiset).  Timeouts leave produced responses unreceived. -/
def eventsConsistent (produced : List (Option Nat)) (events : List FrEvent) : Bool :=
  decide (events.length ≤ produced.length) &&
    (arrivalsOf events).all
      (fun r => decide ((arrivalsOf events).count r ≤ produced.count r))

lemma frs_some_spec (events : List FrEvent) (s : Nat)
    (h : firstResponse events = some s) :
    s / 100 = 2 ∧ FrEvent.arrival (some s) ∈ events := by
  induction events with
  | nil => simp [firstResponse] at h
  | cons e rest ih =>
    cases e with
    | timeout =>
      have h2 := ih (by simpa [firstResponse] using h)
      exact ⟨h2.1, List.mem_cons_of_mem _ h2.2⟩
    | arrival r =>
      cases r with
      | none =>
        have h2 := ih (by simpa [firstResponse] using h)
        exact ⟨h2.1, List.mem_cons_of_mem _ h2.2⟩
      | some t =>
        by_cases ht : t / 100 = 2
        · rw [firstResponse, if_pos ht] at h
          injection h with h
          subst h
          exact ⟨ht, List.mem_cons_self _ _⟩
        · rw [firstResponse, if_neg ht] at h
          have h2 := ih h
          exact ⟨h2.1, List.mem_cons_of_mem _ h2.2⟩

lemma frs_finds_spec (events : List FrEvent)
    (h : ∃ s, FrEvent.arrival (some s) ∈ events ∧ s / 100 = 2) :
    ∃ t, firstResponse events = some t ∧ t / 100 = 2 := by
  induction events with
  | nil => obtain ⟨s, hmem, _⟩ := h; simp at hmem
  | cons e rest ih =>
    obtain ⟨s, hmem, hs⟩ := h
    cases e with
    | timeout =>
      rcases List.mem_cons.mp hmem with heq | hmem'
      · simp at heq
      · obtain ⟨t, ht1, ht2⟩ := ih ⟨s, hmem', hs⟩
        exact ⟨t, by simpa [firstResponse] using ht1, ht2⟩
    | arrival r =>
      cases r with
      | none =>
        rcases List.mem_cons.mp hmem with heq | hmem'
        · simp at heq
        · obtain ⟨t, ht1, ht2⟩ := ih ⟨s, hmem', hs⟩
          exact ⟨t, by simpa [firstResponse] using ht1, ht2⟩
      | some u =>
        by_cases hu : u / 100 = 2
        · exact ⟨u, by rw [firstResponse, if_pos hu], hu⟩
        · rcases List.mem_cons.mp hmem with heq | hmem'
          · injection heq with heq'
            injection heq' with heq''
            subst heq''
            exact absurd hs hu
          · obtain ⟨t, ht1, ht2⟩ := ih ⟨s, hmem', hs⟩
            exact ⟨t, by rw [firstResponse, if_neg hu]; exact ht1, ht2⟩

lemma frs_member (produced : List (Option Nat)) (events : List FrEvent)
    (hc : eventsConsistent produced events = true) (s : Nat)
    (hmem : FrEvent.arrival (some s) ∈ events) : some s ∈ produced := by
  have ha : some s ∈ arrivalsOf events := by
    apply List.mem_filterMap.mpr
    exact ⟨FrEvent.arrival (some s), hmem, rfl⟩
  have hcount : 0 < (arrivalsOf events).count (some s) :=
    List.count_pos_iff.mpr ha
  have hall := (Bool.and_eq_true _ _).mp hc |>.2
  have hle := of_decide_eq_true (List.all_eq_true.mp hall _ ha)
  exact List.count_pos_iff.mp (lt_of_lt_of_le hcount hle)

/-- C2 counterexample: the claim's "if and only if" fails in the
if-direction.  With a single sub-request that produces a 200 response which
arrives only after the one-second wait has expired — run `[timeout]`,
consistent with the produced vector `[some 200]` — the dispatcher returns
the `nil` sentinel and `GetObject` yields `(nil, nil, 404)` even though a
sub-request produced a 2xx response. -/
theorem firstResponse_timeout_counterexample :
    eventsConsistent [some 200] [FrEvent.timeout] = true ∧
      (200 : Nat) / 100 = 2 ∧
      firstResponse [FrEvent.timeout] = none ∧
      getObject [FrEvent.timeout] = (none, none, 404) := by
  decide

/-- C2 (amended): the dispatcher returns a 2xx response iff some select of
its loop received a 2xx arrival.  Hence it returns a 2xx only if some
sub-request actually produced that 2xx response (for every consistent run);
but a produced 2xx whose arrival is not observed before the corresponding
one-second wait expires does not prevent the `nil` sentinel.  When the
sentinel is returned, `GetObject` yields status 404 with nil body and nil
headers. -/
theorem firstResponse_spec :
    (∀ (events : List FrEvent) (s : Nat), firstResponse events = some s →
        s / 100 = 2 ∧ FrEvent.arrival (some s) ∈ events) ∧
      (∀ events : List FrEvent,
        (∃ s, FrEvent.arrival (some s) ∈ events ∧ s / 100 = 2) →
        ∃ t, firstResponse events = some t ∧ t / 100 = 2) ∧
      (∀ (produced : List (Option Nat)) (events : List FrEvent) (s : Nat),
        eventsConsistent produced events = true →
        firstResponse events = some s → some s ∈ produced) ∧
      (∀ events : List FrEvent, firstResponse events = none →
        getObject events = (none, none, 404)) := by
  refine ⟨frs_some_spec, frs_finds_spec, ?_, ?_⟩
  · intro produced events s hc h
    exact frs_member produced events hc s (frs_some_spec events s h).2
  · intro events h
    simp [getObject, h]

/-- C2 witness: the amended characterization applied at concrete runs — the
run `[arrival 200]` (consistent with the produced vector `[some 200]`)
returns 200 and the membership part places it among the produced outcomes;
the run `[timeout]` returns the sentinel and `GetObject` yields 404. -/
theorem firstResponse_spec_witness :
    ((200 : Nat) / 100 = 2 ∧
        FrEvent.arrival (some 200) ∈ [FrEvent.arrival (some 200)]) ∧
      (∃ t, firstResponse [FrEvent.arrival (some 200)] = some t ∧ t / 100 = 2) ∧
      (some 200 : Option Nat) ∈ [some 200] ∧
      getObject [FrEvent.timeout] = (none, none, 404) :=
  ⟨firstResponse_spec.1 [FrEvent.arrival (some 200)] 200 (by decide),
    firstResponse_spec.2.1 [FrEvent.arrival (some 200)] ⟨200, by decide, by decide⟩,
    firstResponse_spec.2.2.1 [some 200] [FrEvent.arrival (some 200)] 200
      (by decide) (by decide),
    firstResponse_spec.2.2.2 [FrEvent.timeout] (by decide)⟩

/-! ## PutObject construction, pipe fan-out and pipe closing
(`ProxyDirectClient.PutObject`)

The loop `for i, device := range c.ObjectRing.GetNodes(partition)` creates
one pipe per device (`rp, wp := io.Pipe()`, with `defer wp.Close()` and
`defer rp.Close()` registered before the error check), then calls
`http.NewRequest`; on error the iteration `continue`s (replica skipped),
otherwise `wp` is appended to `writers` and the request to `reqs`.
Construction success is abstracted by a Boolean per device:
`outcomes.getD i false = true` means `http.NewRequest` succeeded for the
URL of device `i`.  Pipes, writers and requests are identified by their
device index. -/

/-- The request/writer collection loop of `PutObject`, carrying the running
replica index `i`: a device whose request construction fails is skipped
(`continue`), otherwise its index enters the collected list. -/
def buildPutReqs : Nat → List Bool → List Nat
  | _, [] => []
  | i, true :: rest => i :: buildPutReqs (i + 1) rest
  | i, false :: rest => buildPutReqs (i + 1) rest

/-- The `writers` slice of `PutObject` after the construction loop: `wp` is
appended exactly when the request construction succeeded, so it collects
the same device indices as `reqs`. -/
def putObjectWriters (outcomes : List Bool) : List Nat := buildPutReqs 0 outcomes

lemma bpr_length (i : Nat) (l : List Bool) :
    (buildPutReqs i l).length = l.count true := by
  induction l generalizing i with
  | nil => simp [buildPutReqs]
  | cons ok rest ih =>
    cases ok <;> simp [buildPutReqs, ih, List.count_cons]

lemma bpr_le_of_mem (j i : Nat) (l : List Bool) (h : j ∈ buildPutReqs i l) : i ≤ j := by
  induction l generalizing i with
  | nil => simp [buildPutReqs] at h
  | cons ok rest ih =>
    cases ok with
    | false => exact Nat.le_of_succ_le (ih (i + 1) h)
    | true =>
      rcases List.mem_cons.mp h with heq | hmem
      · omega
      · exact Nat.le_of_succ_le (ih (i + 1) hmem)

lemma bpr_count_lt (j i : Nat) (l : List Bool) (h : j < i) :
    (buildPutReqs i l).count j = 0 := by
  rw [List.count_eq_zero]
  intro hmem
  exact absurd (bpr_le_of_mem j i l hmem) (by omega)

lemma bpr_count (i k : Nat) (l : List Bool) (hk : k < l.length) :
    (buildPutReqs i l).count (i + k) = if l.getD k false then 1 else 0 := by
  induction l generalizing i k with
  | nil => simp at hk
  | cons ok rest ih =>
    cases k with
    | zero =>
      cases ok with
      | true =>
        show (i :: buildPutReqs (i + 1) rest).count (i + 0) = _
        rw [List.count_cons]
        rw [Nat.add_zero, bpr_count_lt i (i + 1) rest (by omega)]
        simp
      | false =>
        show (buildPutReqs (i + 1) rest).count (i + 0) = _
        rw [Nat.add_zero, bpr_count_lt i (i + 1) rest (by omega)]
        simp
    | succ k' =>
      have hk' : k' < rest.length := by simpa using hk
      have harith : i + (k' + 1) = (i + 1) + k' := by omega
      cases ok with
      | true =>
        show (i :: buildPutReqs (i + 1) rest).count (i + (k' + 1)) = _
        rw [List.count_cons, harith, ih (i + 1) k' hk']
        have hne : ¬ ((i + 1) + k' = i) := by omega
        have hne2 : ¬ (i = (i + 1) + k') := by omega
        simp [hne, hne2, List.getD_cons_succ]
      | false =>
        show (buildPutReqs (i + 1) rest).count (i + (k' + 1)) = _
        rw [harith, ih (i + 1) k' hk']
        simp [List.getD_cons_succ]

/-- `io.MultiWriter(writers[0], writers[1], writers[2])` in `PutObject`'s
transfer goroutine: the three fixed index accesses succeed only when at
least three writers were collected (`none` models the out-of-range panic),
and only the pipes at positions 0, 1 and 2 are fed by the copy. -/
def multiWriterTargets (ws : List Nat) : Option (List Nat) :=
  match ws[0]?, ws[1]?, ws[2]? with
  | some a, some b, some c => some [a, b, c]
  | _, _, _ => none

lemma mwt_isSome : ∀ ws : List Nat,
    (multiWriterTargets ws).isSome = decide (3 ≤ ws.length)
  | [] => rfl
  | [_] => rfl
  | [_, _] => rfl
  | a :: b :: c :: rest => by
    have h3 : 3 ≤ (a :: b :: c :: rest).length := by simp
    simp [multiWriterTargets, h3]

lemma mwt_exact (ws : List Nat) (h : ws.length = 3) :
    multiWriterTargets ws = some ws := by
  match ws with
  | [] => simp at h
  | [_] => simp at h
  | [_, _] => simp at h
  | [a, b, c] => rfl
  | _ :: _ :: _ :: _ :: _ => simp at h

/-- C6 counterexample: the claim's "in bounds ... for every replica count R
and construction-failure pattern" fails.  With R = 1 (single device, its
construction succeeding) only one pipe writer exists and the access
`writers[2]` is out of range — the transfer goroutine panics; and with
R = 4 the copy feeds only `writers[0..2]`, leaving constructed pipe 3
unfed. -/
theorem putObject_multiwriter_counterexample :
    putObjectWriters [true] = [0] ∧
      multiWriterTargets (putObjectWriters [true]) = none ∧
      3 ∈ putObjectWriters [true, true, true, true] ∧
      multiWriterTargets (putObjectWriters [true, true, true, true]) =
        some [0, 1, 2] := by
  decide

/-- C6 (amended): `PutObject` issues exactly one sub-request per device
whose construction succeeds (R when none fails), but the body-copy routine
always accesses the pipe writers at the fixed indices 0, 1 and 2: these
accesses are in bounds iff at least three pipes were constructed, and every
constructed pipe is fed exactly when exactly three were constructed (with
more, the pipes beyond index 2 are never fed). -/
theorem putObject_multiwriter_spec (outcomes : List Bool) :
    ((putObjectWriters outcomes).length = outcomes.count true) ∧
      ((multiWriterTargets (putObjectWriters outcomes)).isSome =
        decide (3 ≤ (putObjectWriters outcomes).length)) ∧
      ((putObjectWriters outcomes).length = 3 →
        multiWriterTargets (putObjectWriters outcomes) =
          some (putObjectWriters outcomes)) :=
  ⟨bpr_length 0 outcomes, mwt_isSome _, mwt_exact _⟩

/-- C6 witness: with three devices and all constructions succeeding the
three index accesses are in bounds and the copy feeds exactly the three
constructed pipes. -/
theorem putObject_multiwriter_witness :
    multiWriterTargets (putObjectWriters [true, true, true]) =
      some (putObjectWriters [true, true, true]) :=
  (putObject_multiwriter_spec [true, true, true]).2.2 (by decide)

/-- Close events on pipe write-ends during one `PutObject` call, by device
index.  The transfer goroutine first evaluates
`io.MultiWriter(writers[0], writers[1], writers[2])`: when fewer than three
writers were collected this indexing panics before any close runs, and the
unrecovered panic crashes the process, which also prevents the deferred
closes — no close events, modelled as `none`.  Otherwise the goroutine
closes every collected writer after `io.Copy` returns
(`for _, writer := range writers { writer.Close() }`), and the
`defer wp.Close()` registered for every created pipe — skipped replicas
included — runs when `PutObject` returns, in reverse creation order.  The
deferred closes are tied to `PutObject`'s return (which the quorum response
triggers), not to the source stream being exhausted. -/
def putCloseEvents (outcomes : List Bool) : Option (List Nat) :=
  if 3 ≤ (putObjectWriters outcomes).length then
    some (putObjectWriters outcomes ++ (List.range outcomes.length).reverse)
  else none

/-- How many times the write-end of pipe `i` is closed during one
`PutObject` call; `none` when the call crashes on the out-of-range writer
access before any close can happen. -/
def writeCloseCount (outcomes : List Bool) (i : Nat) : Option Nat :=
  (putCloseEvents outcomes).map (fun evs => evs.count i)

lemma count_range_eq (n j : Nat) : (List.range n).count j = if j < n then 1 else 0 := by
  induction n with
  | zero => simp
  | succ n ih =>
    rw [List.range_succ, List.count_append, ih]
    by_cases h : j < n
    · have hne : j ≠ n := by omega
      have h1 : j < n + 1 := by omega
      simp [h, hne, h1, List.count_singleton']
    · by_cases h2 : j = n
      · subst h2
        simp [h, List.count_singleton']
      · have h3 : ¬ (j < n + 1) := by omega
        simp [h, h2, h3, List.count_singleton']

/-- C7 counterexample: with three devices and every construction
succeeding — a pattern on which the transfer goroutine does not panic — the
write-end of pipe 0 is closed twice during the `PutObject` call: once by
the transfer goroutine after the copy and once by the deferred `wp.Close()`
when `PutObject` returns — not exactly once as the claim states. -/
theorem putObject_double_close :
    writeCloseCount [true, true, true] 0 = some 2 ∧
      writeCloseCount [true, true, true] 0 ≠ some 1 := by
  decide

/-- C7 (amended): when at least three pipe writers are collected — so the
transfer goroutine's fixed accesses `writers[0..2]` do not panic — every
pipe write-end created by `PutObject` is closed at least once: a pipe
belonging to a constructed request twice (once by the transfer goroutine
after the source is exhausted or errors, once by the deferred close that
runs when `PutObject` returns, which the early quorum return can trigger
before the source is exhausted), and a pipe of a skipped replica once, by
its deferred close alone.  With fewer than three collected writers the
goroutine panics on `writers[2]` before closing anything and the process
crash also skips the deferred closes, so no write-end is closed at all. -/
theorem putObject_close_spec (outcomes : List Bool) (i : Nat)
    (h : i < outcomes.length) :
    (3 ≤ (putObjectWriters outcomes).length →
        writeCloseCount outcomes i
          = some (if outcomes.getD i false then 2 else 1)) ∧
      ((putObjectWriters outcomes).length < 3 →
        writeCloseCount outcomes i = none) := by
  constructor
  · intro h3
    unfold writeCloseCount putCloseEvents
    rw [if_pos h3, Option.map_some']
    congr 1
    unfold putObjectWriters
    rw [List.count_append, List.count_reverse, count_range_eq, if_pos h]
    have hc := bpr_count 0 i outcomes h
    rw [Nat.zero_add] at hc
    rw [hc]
    by_cases hok : outcomes.getD i false = true
    · rw [if_pos hok, if_pos hok]
    · rw [if_neg hok, if_neg hok]
  · intro h3
    unfold writeCloseCount putCloseEvents
    rw [if_neg (by omega)]
    rfl

/-- C7 witness: under the pattern `[true, true, true, false]` (three
writers collected, so no panic), constructed pipe 0 is closed twice and
skipped pipe 3 once; under `[true, false, true]` (two writers) the call
crashes before any close. -/
theorem putObject_close_witness :
    writeCloseCount [true, true, true, false] 0 = some 2 ∧
      writeCloseCount [true, true, true, false] 3 = some 1 ∧
      writeCloseCount [true, false, true] 0 = none := by
  refine ⟨?_, ?_, ?_⟩
  · have := (putObject_close_spec [true, true, true, false] 0 (by decide)).1 (by decide)
    simpa using this
  · have := (putObject_close_spec [true, true, true, false] 3 (by decide)).1 (by decide)
    simpa using this
  · exact (putObject_close_spec [true, false, true] 0 (by decide)).2 (by decide)

/-! ## Header construction

`req.Header` is modelled as an association list built by `headerSet`
(Go's `http.Header.Set`: replace any existing entry for the key) and read by
`headerGet` (Go's `http.Header.Get`: first entry for the key).  The
caller-supplied headers are a Go `http.Header`, i.e. a map from key to a
list of values, modelled as `List (String × List String)` with distinct
keys. -/

/-- `http.Header.Set(key, val)` on a request being built: drops every
existing entry for `key` and records the single value `val`. -/
def headerSet : List (String × String) → String → String → List (String × String)
  | [], key, val => [(key, val)]
  | p :: t, key, val =>
    if p.1 = key then headerSet t key val else p :: headerSet t key val

/-- `http.Header.Get(key)`: the first value stored for `key`, or nothing. -/
def headerGet : List (String × String) → String → Option String
  | [], _ => none
  | p :: t, key => if p.1 = key then some p.2 else headerGet t key

/-- All values stored for `key`, in order. -/
def headerValues (hs : List (String × String)) (key : String) : List String :=
  (hs.filter (fun p => p.1 == key)).map (fun p => p.2)

/-- The header-copy loop every operation runs on each sub-request:
`for key := range headers { req.Header.Set(key, headers.Get(key)) }`.
`headers.Get(key)` yields only the first value of the key (the empty string
when the key has no values), so exactly one value per key is copied. -/
def copyHeaders (user : List (String × List String)) : List (String × String) :=
  user.foldl (fun acc kv => headerSet acc kv.1 (kv.2.headD "")) []

lemma headerGet_set_self (hs : List (String × String)) (k v : String) :
    headerGet (headerSet hs k v) k = some v := by
  induction hs with
  | nil => simp [headerSet, headerGet]
  | cons p t ih =>
    by_cases hp : p.1 = k
    · simpa [headerSet, hp] using ih
    · simpa [headerSet, headerGet, hp] using ih

lemma headerGet_set_other (hs : List (String × String)) (k k' v : String)
    (hne : k' ≠ k) : headerGet (headerSet hs k' v) k = headerGet hs k := by
  induction hs with
  | nil => simp [headerSet, headerGet, hne]
  | cons p t ih =>
    by_cases hp : p.1 = k'
    · have hpk : ¬ (p.1 = k) := by rw [hp]; exact hne
      simpa [headerSet, headerGet, hp, hpk, hne] using ih
    · by_cases hpk : p.1 = k
      · simp [headerSet, headerGet, hp, hpk, hne.symm]
      · simpa [headerSet, headerGet, hp, hpk] using ih

lemma headerGet_copy_loop (user : List (String × List String))
    (key : String) (h : ∀ kv ∈ user, kv.1 ≠ key) (acc : List (String × String)) :
    headerGet (user.foldl (fun acc kv => headerSet acc kv.1 (kv.2.headD "")) acc) key
      = headerGet acc key := by
  induction user generalizing acc with
  | nil => rfl
  | cons kv rest ih =>
    rw [List.foldl_cons, ih (fun x hx => h x (List.mem_cons_of_mem _ hx))]
    exact headerGet_set_other acc key kv.1 _ (h kv (List.mem_cons_self _ _))

lemma copyHeaders_loop_get (user : List (String × List String)) (key : String)
    (vals : List String) (hnd : (user.map Prod.fst).Nodup)
    (hmem : (key, vals) ∈ user) (acc : List (String × String)) :
    headerGet (user.foldl (fun acc kv => headerSet acc kv.1 (kv.2.headD "")) acc) key
      = some (vals.headD "") := by
  induction user generalizing acc with
  | nil => simp at hmem
  | cons kv rest ih =>
    have hnd2 := List.nodup_cons.mp hnd
    rcases List.mem_cons.mp hmem with heq | hmem'
    · subst heq
      rw [List.foldl_cons]
      have hnotin : ∀ x ∈ rest, x.1 ≠ key := by
        intro x hx hx1
        exact hnd2.1 (List.mem_map.mpr ⟨x, hx, hx1⟩)
      rw [headerGet_copy_loop rest key hnotin]
      exact headerGet_set_self acc key (vals.headD "")
    · rw [List.foldl_cons]
      exact ih hnd2.2 hmem' _

/-- C9 counterexample: the claim says every caller-supplied key "together
with all of its values" reaches the sub-request.  With the caller map
`{X-Foo: [a, b]}` the copy loop stores only the first value — the
sub-request carries `X-Foo: [a]`, and the value `b` is dropped. -/
theorem headerCopy_truncates :
    headerValues (copyHeaders [("X-Foo", ["a", "b"])]) "X-Foo" = ["a"] ∧
      headerValues (copyHeaders [("X-Foo", ["a", "b"])]) "X-Foo" ≠ ["a", "b"] := by
  decide

/-- C9 (amended): every key of the caller-supplied header map is present on
every constructed sub-request, but only with the first of its values
(`headers.Get(key)`); any further values of a key are dropped by the copy
loop. -/
theorem headerCopy_spec (user : List (String × List String)) (key : String)
    (vals : List String) (hnd : (user.map Prod.fst).Nodup)
    (hmem : (key, vals) ∈ user) :
    headerGet (copyHeaders user) key = some (vals.headD "") :=
  copyHeaders_loop_get user key vals hnd hmem []

/-- C9 witness: the amended copy behavior at a concrete two-key map. -/
theorem headerCopy_spec_witness :
    headerGet (copyHeaders [("X-Foo", ["a", "b"]), ("X-Bar", ["c"])]) "X-Bar"
      = some "c" :=
  headerCopy_spec [("X-Foo", ["a", "b"]), ("X-Bar", ["c"])] "X-Bar" ["c"]
    (by decide) (by decide)

/-! ## Cross-tier placement headers (C5)

Each child-tier mutation looks up the parent ring's partition and node
list, and on the sub-request for child replica `i` sets the three placement
headers from the parent device at the same index `i`
(`accountDevices[i]` / `containerDevices[i]`; Go panics when `i` is out of
range of the parent list, modelled by `none`).  The builders below follow
each operation's exact `Header.Set` order after the user-header copy. -/

/-- Headers of `PutContainer`'s sub-request for child replica `i`:
user copy, then `X-Account-Partition`, `X-Account-Host`,
`X-Account-Device` from `accountDevices[i]`. -/
def putContainerHeaders (accountPartition : Nat) (accountDevices : List Device)
    (user : List (String × List String)) (i : Nat) :
    Option (List (String × String)) :=
  match accountDevices[i]? with
  | none => none
  | some d =>
    some (headerSet (headerSet (headerSet (copyHeaders user)
      "X-Account-Partition" (toString accountPartition))
      "X-Account-Host" (d.ip ++ ":" ++ toString d.port))
      "X-Account-Device" d.device)

/-- Headers of `DeleteContainer`'s sub-request for child replica `i`: same
construction as `PutContainer`. -/
def deleteContainerHeaders (accountPartition : Nat) (accountDevices : List Device)
    (user : List (String × List String)) (i : Nat) :
    Option (List (String × String)) :=
  match accountDevices[i]? with
  | none => none
  | some d =>
    some (headerSet (headerSet (headerSet (copyHeaders user)
      "X-Account-Partition" (toString accountPartition))
      "X-Account-Host" (d.ip ++ ":" ++ toString d.port))
      "X-Account-Device" d.device)

/-- Headers of `PutObject`'s sub-request for child replica `i`: user copy,
`Content-Type`, the three `X-Container-*` placement headers from
`containerDevices[i]`, then `Expect: 100-Continue`. -/
def putObjectHeaders (containerPartition : Nat) (containerDevices : List Device)
    (user : List (String × List String)) (i : Nat) :
    Option (List (String × String)) :=
  match containerDevices[i]? with
  | none => none
  | some d =>
    some (headerSet (headerSet (headerSet (headerSet (headerSet (copyHeaders user)
      "Content-Type" "application/octet-stream")
      "X-Container-Partition" (toString containerPartition))
      "X-Container-Host" (d.ip ++ ":" ++ toString d.port))
      "X-Container-Device" d.device)
      "Expect" "100-Continue")

/-- Headers of `PostObject`'s sub-request for child replica `i`: user copy,
`Content-Type`, then the three `X-Container-*` placement headers. -/
def postObjectHeaders (containerPartition : Nat) (containerDevices : List Device)
    (user : List (String × List String)) (i : Nat) :
    Option (List (String × String)) :=
  match containerDevices[i]? with
  | none => none
  | some d =>
    some (headerSet (headerSet (headerSet (headerSet (copyHeaders user)
      "Content-Type" "application/octet-stream")
      "X-Container-Partition" (toString containerPartition))
      "X-Container-Host" (d.ip ++ ":" ++ toString d.port))
      "X-Container-Device" d.device)

/-- Headers of `DeleteObject`'s sub-request for child replica `i`: same
construction as `PostObject`. -/
def deleteObjectHeaders (containerPartition : Nat) (containerDevices : List Device)
    (user : List (String × List String)) (i : Nat) :
    Option (List (String × String)) :=
  match containerDevices[i]? with
  | none => none
  | some d =>
    some (headerSet (headerSet (headerSet (headerSet (copyHeaders user)
      "Content-Type" "application/octet-stream")
      "X-Container-Partition" (toString containerPartition))
      "X-Container-Host" (d.ip ++ ":" ++ toString d.port))
      "X-Container-Device" d.device)

lemma putContainerHeaders_placement (pp : Nat) (pd : List Device)
    (user : List (String × List String)) (i : Nat) (d : Device)
    (h : pd[i]? = some d) :
    ∃ hs, putContainerHeaders pp pd user i = some hs ∧
      headerGet hs "X-Account-Partition" = some (toString pp) ∧
      headerGet hs "X-Account-Host" = some (d.ip ++ ":" ++ toString d.port) ∧
      headerGet hs "X-Account-Device" = some d.device := by
  refine ⟨_, by rw [putContainerHeaders, h], ?_, ?_, ?_⟩
  · rw [headerGet_set_other _ _ _ _ (by decide), headerGet_set_other _ _ _ _ (by decide)]
    exact headerGet_set_self _ _ _
  · rw [headerGet_set_other _ _ _ _ (by decide)]
    exact headerGet_set_self _ _ _
  · exact headerGet_set_self _ _ _

lemma deleteContainerHeaders_placement (pp : Nat) (pd : List Device)
    (user : List (String × List String)) (i : Nat) (d : Device)
    (h : pd[i]? = some d) :
    ∃ hs, deleteContainerHeaders pp pd user i = some hs ∧
      headerGet hs "X-Account-Partition" = some (toString pp) ∧
      headerGet hs "X-Account-Host" = some (d.ip ++ ":" ++ toString d.port) ∧
      headerGet hs "X-Account-Device" = some d.device := by
  refine ⟨_, by rw [deleteContainerHeaders, h], ?_, ?_, ?_⟩
  · rw [headerGet_set_other _ _ _ _ (by decide), headerGet_set_other _ _ _ _ (by decide)]
    exact headerGet_set_self _ _ _
  · rw [headerGet_set_other _ _ _ _ (by decide)]
    exact headerGet_set_self _ _ _
  · exact headerGet_set_self _ _ _

lemma putObjectHeaders_placement (cp : Nat) (cd : List Device)
    (user : List (String × List String)) (i : Nat) (d : Device)
    (h : cd[i]? = some d) :
    ∃ hs, putObjectHeaders cp cd user i = some hs ∧
      headerGet hs "X-Container-Partition" = some (toString cp) ∧
      headerGet hs "X-Container-Host" = some (d.ip ++ ":" ++ toString d.port) ∧
      headerGet hs "X-Container-Device" = some d.device := by
  refine ⟨_, by rw [putObjectHeaders, h], ?_, ?_, ?_⟩
  · rw [headerGet_set_other _ _ _ _ (by decide), headerGet_set_other _ _ _ _ (by decide),
      headerGet_set_other _ _ _ _ (by decide)]
    exact headerGet_set_self _ _ _
  · rw [headerGet_set_other _ _ _ _ (by decide), headerGet_set_other _ _ _ _ (by decide)]
    exact headerGet_set_self _ _ _
  · rw [headerGet_set_other _ _ _ _ (by decide)]
    exact headerGet_set_self _ _ _

lemma postObjectHeaders_placement (cp : Nat) (cd : List Device)
    (user : List (String × List String)) (i : Nat) (d : Device)
    (h : cd[i]? = some d) :
    ∃ hs, postObjectHeaders cp cd user i = some hs ∧
      headerGet hs "X-Container-Partition" = some (toString cp) ∧
      headerGet hs "X-Container-Host" = some (d.ip ++ ":" ++ toString d.port) ∧
      headerGet hs "X-Container-Device" = some d.device := by
  refine ⟨_, by rw [postObjectHeaders, h], ?_, ?_, ?_⟩
  · rw [headerGet_set_other _ _ _ _ (by decide), headerGet_set_other _ _ _ _ (by decide)]
    exact headerGet_set_self _ _ _
  · rw [headerGet_set_other _ _ _ _ (by decide)]
    exact headerGet_set_self _ _ _
  · exact headerGet_set_self _ _ _

lemma deleteObjectHeaders_placement (cp : Nat) (cd : List Device)
    (user : List (String × List String)) (i : Nat) (d : Device)
    (h : cd[i]? = some d) :
    ∃ hs, deleteObjectHeaders cp cd user i = some hs ∧
      headerGet hs "X-Container-Partition" = some (toString cp) ∧
      headerGet hs "X-Container-Host" = some (d.ip ++ ":" ++ toString d.port) ∧
      headerGet hs "X-Container-Device" = some d.device := by
  refine ⟨_, by rw [deleteObjectHeaders, h], ?_, ?_, ?_⟩
  · rw [headerGet_set_other _ _ _ _ (by decide), headerGet_set_other _ _ _ _ (by decide)]
    exact headerGet_set_self _ _ _
  · rw [headerGet_set_other _ _ _ _ (by decide)]
    exact headerGet_set_self _ _ _
  · exact headerGet_set_self _ _ _

/-- C5: every child-tier mutation (`PutContainer`, `DeleteContainer`,
`PutObject`, `PostObject`, `DeleteObject`) places on the sub-request for
child replica `i` the three placement headers
`X-<Parent>-Partition = <parent partition>`,
`X-<Parent>-Host = <ip>:<port>` of parent device `i` and
`X-<Parent>-Device = <device name>` of parent device `i`, with parent
`Account` for the container tier and `Container` for the object tier
(whenever index `i` exists in the parent device list; otherwise the Go code
panics on the slice index). -/
theorem placementHeaders_spec :
    (∀ (pp : Nat) (pd : List Device) (user : List (String × List String))
        (i : Nat) (d : Device), pd[i]? = some d →
      ∃ hs, putContainerHeaders pp pd user i = some hs ∧
        headerGet hs "X-Account-Partition" = some (toString pp) ∧
        headerGet hs "X-Account-Host" = some (d.ip ++ ":" ++ toString d.port) ∧
        headerGet hs "X-Account-Device" = some d.device) ∧
      (∀ (pp : Nat) (pd : List Device) (user : List (String × List String))
          (i : Nat) (d : Device), pd[i]? = some d →
        ∃ hs, deleteContainerHeaders pp pd user i = some hs ∧
          headerGet hs "X-Account-Partition" = some (toString pp) ∧
          headerGet hs "X-Account-Host" = some (d.ip ++ ":" ++ toString d.port) ∧
          headerGet hs "X-Account-Device" = some d.device) ∧
      (∀ (cp : Nat) (cd : List Device) (user : List (String × List String))
          (i : Nat) (d : Device), cd[i]? = some d →
        ∃ hs, putObjectHeaders cp cd user i = some hs ∧
          headerGet hs "X-Container-Partition" = some (toString cp) ∧
          headerGet hs "X-Container-Host" = some (d.ip ++ ":" ++ toString d.port) ∧
          headerGet hs "X-Container-Device" = some d.device) ∧
      (∀ (cp : Nat) (cd : List Device) (user : List (String × List String))
          (i : Nat) (d : Device), cd[i]? = some d →
        ∃ hs, postObjectHeaders cp cd user i = some hs ∧
          headerGet hs "X-Container-Partition" = some (toString cp) ∧
          headerGet hs "X-Container-Host" = some (d.ip ++ ":" ++ toString d.port) ∧
          headerGet hs "X-Container-Device" = some d.device) ∧
      (∀ (cp : Nat) (cd : List Device) (user : List (String × List String))
          (i : Nat) (d : Device), cd[i]? = some d →
        ∃ hs, deleteObjectHeaders cp cd user i = some hs ∧
          headerGet hs "X-Container-Partition" = some (toString cp) ∧
          headerGet hs "X-Container-Host" = some (d.ip ++ ":" ++ toString d.port) ∧
          headerGet hs "X-Container-Device" = some d.device) :=
  ⟨putContainerHeaders_placement, deleteContainerHeaders_placement,
    putObjectHeaders_placement, postObjectHeaders_placement,
    deleteObjectHeaders_placement⟩

/-- C5 witness: the placement headers of all five child-tier mutations at a
concrete parent device list (one device `10.0.0.1:6002/sdb`, partition 7,
replica index 0, no user headers). -/
theorem placementHeaders_spec_witness :
    (∃ hs, putContainerHeaders 7 [Device.mk "10.0.0.1" 6002 "sdb"] [] 0 = some hs ∧
        headerGet hs "X-Account-Partition" = some (toString 7) ∧
        headerGet hs "X-Account-Host"
          = some ((Device.mk "10.0.0.1" 6002 "sdb").ip ++ ":"
              ++ toString (Device.mk "10.0.0.1" 6002 "sdb").port) ∧
        headerGet hs "X-Account-Device"
          = some (Device.mk "10.0.0.1" 6002 "sdb").device) ∧
      (∃ hs, deleteContainerHeaders 7 [Device.mk "10.0.0.1" 6002 "sdb"] [] 0 = some hs ∧
        headerGet hs "X-Account-Partition" = some (toString 7) ∧
        headerGet hs "X-Account-Host"
          = some ((Device.mk "10.0.0.1" 6002 "sdb").ip ++ ":"
              ++ toString (Device.mk "10.0.0.1" 6002 "sdb").port) ∧
        headerGet hs "X-Account-Device"
          = some (Device.mk "10.0.0.1" 6002 "sdb").device) ∧
      (∃ hs, putObjectHeaders 7 [Device.mk "10.0.0.1" 6002 "sdb"] [] 0 = some hs ∧
        headerGet hs "X-Container-Partition" = some (toString 7) ∧
        headerGet hs "X-Container-Host"
          = some ((Device.mk "10.0.0.1" 6002 "sdb").ip ++ ":"
              ++ toString (Device.mk "10.0.0.1" 6002 "sdb").port) ∧
        headerGet hs "X-Container-Device"
          = some (Device.mk "10.0.0.1" 6002 "sdb").device) ∧
      (∃ hs, postObjectHeaders 7 [Device.mk "10.0.0.1" 6002 "sdb"] [] 0 = some hs ∧
        headerGet hs "X-Container-Partition" = some (toString 7) ∧
        headerGet hs "X-Container-Host"
          = some ((Device.mk "10.0.0.1" 6002 "sdb").ip ++ ":"
              ++ toString (Device.mk "10.0.0.1" 6002 "sdb").port) ∧
        headerGet hs "X-Container-Device"
          = some (Device.mk "10.0.0.1" 6002 "sdb").device) ∧
      (∃ hs, deleteObjectHeaders 7 [Device.mk "10.0.0.1" 6002 "sdb"] [] 0 = some hs ∧
        headerGet hs "X-Container-Partition" = some (toString 7) ∧
        headerGet hs "X-Container-Host"
          = some ((Device.mk "10.0.0.1" 6002 "sdb").ip ++ ":"
              ++ toString (Device.mk "10.0.0.1" 6002 "sdb").port) ∧
        headerGet hs "X-Container-Device"
          = some (Device.mk "10.0.0.1" 6002 "sdb").device) :=
  ⟨placementHeaders_spec.1 7 _ [] 0 _ rfl,
    placementHeaders_spec.2.1 7 _ [] 0 _ rfl,
    placementHeaders_spec.2.2.1 7 _ [] 0 _ rfl,
    placementHeaders_spec.2.2.2.1 7 _ [] 0 _ rfl,
    placementHeaders_spec.2.2.2.2 7 _ [] 0 _ rfl⟩

/-! ## Account-scoped façade (`directClient`, C8)

Each façade method calls the corresponding `ProxyDirectClient` operation
and turns its status code into either a nil error (`none`) or
`HTTPError(code)` (`some code`).  Most methods test `code/100 != 2`; the
listing methods `GetAccount` and `GetContainer` test `code != 200`. -/

/-- `directClient.PutAccount` error result for an underlying status. -/
def putAccountErr (code : Nat) : Option Nat :=
  if code / 100 ≠ 2 then some code else none

/-- `directClient.PostAccount` error result. -/
def postAccountErr (code : Nat) : Option Nat :=
  if code / 100 ≠ 2 then some code else none

/-- `directClient.DeleteAccount` error result. -/
def deleteAccountErr (code : Nat) : Option Nat :=
  if code / 100 ≠ 2 then some code else none

/-- `directClient.HeadAccount` error result. -/
def headAccountErr (code : Nat) : Option Nat :=
  if code / 100 ≠ 2 then some code else none

/-- `directClient.GetAccount` error result: `if code != 200`. -/
def getAccountErr (code : Nat) : Option Nat :=
  if code ≠ 200 then some code else none

/-- `directClient.PutContainer` error result. -/
def putContainerErr (code : Nat) : Option Nat :=
  if code / 100 ≠ 2 then some code else none

/-- `directClient.PostContainer` error result. -/
def postContainerErr (code : Nat) : Option Nat :=
  if code / 100 ≠ 2 then some code else none

/-- `directClient.DeleteContainer` error result. -/
def deleteContainerErr (code : Nat) : Option Nat :=
  if code / 100 ≠ 2 then some code else none

/-- `directClient.HeadContainer` error result. -/
def headContainerErr (code : Nat) : Option Nat :=
  if code / 100 ≠ 2 then some code else none

/-- `directClient.GetContainer` error result: `if code != 200`. -/
def getContainerErr (code : Nat) : Option Nat :=
  if code ≠ 200 then some code else none

/-- `directClient.PutObject` error result. -/
def putObjectErr (code : Nat) : Option Nat :=
  if code / 100 ≠ 2 then some code else none

/-- `directClient.PostObject` error result. -/
def postObjectErr (code : Nat) : Option Nat :=
  if code / 100 ≠ 2 then some code else none

/-- `directClient.DeleteObject` error result. -/
def deleteObjectErr (code : Nat) : Option Nat :=
  if code / 100 ≠ 2 then some code else none

/-- `directClient.HeadObject` error result. -/
def headObjectErr (code : Nat) : Option Nat :=
  if code / 100 ≠ 2 then some code else none

/-- `directClient.GetObject` error result. -/
def getObjectErr (code : Nat) : Option Nat :=
  if code / 100 ≠ 2 then some code else none

lemma classCheck_spec (code : Nat) :
    ((if code / 100 ≠ 2 then some code else none) = (none : Option Nat)
        ↔ code / 100 = 2) ∧
      ((if code / 100 ≠ 2 then some code else none) = (none : Option Nat)
        ∨ (if code / 100 ≠ 2 then some code else none) = some code) := by
  by_cases h : code / 100 = 2 <;> simp [h]

lemma exactCheck_spec (code : Nat) :
    ((if code ≠ 200 then some code else none) = (none : Option Nat)
        ↔ code = 200) ∧
      ((if code ≠ 200 then some code else none) = (none : Option Nat)
        ∨ (if code ≠ 200 then some code else none) = some code) := by
  by_cases h : code = 200 <;> simp [h]

/-- C8 counterexample: the claim says every façade method returns a nil
error iff the underlying status is 2xx.  For the listing methods the test
is `code != 200`: on underlying status 204 — a 2xx status —
`directClient.GetContainer` and `directClient.GetAccount` return
`HTTPError(204)` instead of a nil error. -/
theorem facade_204_counterexample :
    getContainerErr 204 = some 204 ∧
      getAccountErr 204 = some 204 ∧
      (204 : Nat) / 100 = 2 ∧
      putContainerErr 204 = none := by
  decide

/-- C8 (amended): every façade method except the listing GETs returns a nil
error iff the underlying status is 2xx; `GetAccount` and `GetContainer`
return a nil error iff the underlying status is exactly 200 (so other 2xx
codes are reported as failures); and whenever any method returns an error
it is an HTTP-status error carrying exactly the underlying status code. -/
theorem facade_error_spec (code : Nat) :
    ((putAccountErr code = none ↔ code / 100 = 2) ∧
        (putAccountErr code = none ∨ putAccountErr code = some code)) ∧
      ((postAccountErr code = none ↔ code / 100 = 2) ∧
        (postAccountErr code = none ∨ postAccountErr code = some code)) ∧
      ((deleteAccountErr code = none ↔ code / 100 = 2) ∧
        (deleteAccountErr code = none ∨ deleteAccountErr code = some code)) ∧
      ((headAccountErr code = none ↔ code / 100 = 2) ∧
        (headAccountErr code = none ∨ headAccountErr code = some code)) ∧
      ((getAccountErr code = none ↔ code = 200) ∧
        (getAccountErr code = none ∨ getAccountErr code = some code)) ∧
      ((putContainerErr code = none ↔ code / 100 = 2) ∧
        (putContainerErr code = none ∨ putContainerErr code = some code)) ∧
      ((postContainerErr code = none ↔ code / 100 = 2) ∧
        (postContainerErr code = none ∨ postContainerErr code = some code)) ∧
      ((deleteContainerErr code = none ↔ code / 100 = 2) ∧
        (deleteContainerErr code = none ∨ deleteContainerErr code = some code)) ∧
      ((headContainerErr code = none ↔ code / 100 = 2) ∧
        (headContainerErr code = none ∨ headContainerErr code = some code)) ∧
      ((getContainerErr code = none ↔ code = 200) ∧
        (getContainerErr code = none ∨ getContainerErr code = some code)) ∧
      ((putObjectErr code = none ↔ code / 100 = 2) ∧
        (putObjectErr code = none ∨ putObjectErr code = some code)) ∧
      ((postObjectErr code = none ↔ code / 100 = 2) ∧
        (postObjectErr code = none ∨ postObjectErr code = some code)) ∧
      ((deleteObjectErr code = none ↔ code / 100 = 2) ∧
        (deleteObjectErr code = none ∨ deleteObjectErr code = some code)) ∧
      ((headObjectErr code = none ↔ code / 100 = 2) ∧
        (headObjectErr code = none ∨ headObjectErr code = some code)) ∧
      ((getObjectErr code = none ↔ code / 100 = 2) ∧
        (getObjectErr code = none ∨ getObjectErr code = some code)) :=
  ⟨classCheck_spec code, classCheck_spec code, classCheck_spec code,
    classCheck_spec code, exactCheck_spec code, classCheck_spec code,
    classCheck_spec code, classCheck_spec code, classCheck_spec code,
    exactCheck_spec code, classCheck_spec code, classCheck_spec code,
    classCheck_spec code, classCheck_spec code, classCheck_spec code⟩

/-- C8 witness: the amended behavior at the concrete underlying status 204:
the class-checking `PutContainer` façade reports success, while the
200-checking `GetContainer` façade reports the typed error carrying 204. -/
theorem facade_error_spec_witness :
    putContainerErr 204 = none ∧
      (getContainerErr 204 = none ∨ getContainerErr 204 = some 204) :=
  ⟨(facade_error_spec 204).2.2.2.2.2.1.1.mpr (by norm_num),
    (facade_error_spec 204).2.2.2.2.2.2.2.2.2.1.2⟩

end Hummingbird
